import Mathlib

/-!
Shallow embedding of the carbon-footprint scoring engine of the
Swasth Khet repository (`CarbonFootprintService`), together with proofs
checking the natural-language specification against it.

JS numbers are modelled as `ℚ`; `undefined` results of an object lookup
are modelled as `Option.none`; the NaN produced by arithmetic on
`undefined` is likewise modelled as `Option.none`.
-/

/-- Rounding as performed by JS `Math.round`: half-way cases go toward
positive infinity. -/
def jsRound (x : ℚ) : ℤ := ⌊x + 1/2⌋

/-- The source's round-to-2-decimals idiom `Math.round(x * 100) / 100`. -/
def round2 (x : ℚ) : ℚ := (jsRound (x * 100) : ℚ) / 100

/-- JS `x || d` applied to the result of an object lookup: both `undefined`
(absent key, modelled `none`) and the number `0` are falsy and give `d`. -/
def jsOrDefault (x : Option ℚ) (d : ℚ) : ℚ :=
  match x with
  | some v => if v = 0 then d else v
  | none => d

/-- `irrigationType` enum from the data model. -/
inductive IrrigationType where
  | flood
  | drip
  | sprinkler
  | rainfed
deriving DecidableEq

/-- The bare string the JS code holds for each `irrigationType` value. -/
def IrrigationType.jsString : IrrigationType → String
  | .flood => "flood"
  | .drip => "drip"
  | .sprinkler => "sprinkler"
  | .rainfed => "rainfed"

/-- `transportMethod` enum from the data model. -/
inductive TransportMethod where
  | manual
  | bullock_cart
  | tractor
  | truck
deriving DecidableEq

/-- `fertilizerUsage` sub-record. -/
structure FertilizerUsage where
  synthetic : ℚ
  organic : ℚ
deriving DecidableEq

/-- `pesticideUsage` sub-record. -/
structure PesticideUsage where
  chemical : ℚ
  organic : ℚ
deriving DecidableEq

/-- `fuelUsage` sub-record. -/
structure FuelUsage where
  diesel : ℚ
  petrol : ℚ
  electricity : ℚ
deriving DecidableEq

/-- A validated `UsageRecord` (`farmData` in the source): all sub-records
present, quantities numeric. -/
structure FarmData where
  area : ℚ
  fertilizerUsage : FertilizerUsage
  pesticideUsage : PesticideUsage
  fuelUsage : FuelUsage
  irrigationHours : ℚ
  irrigationType : IrrigationType
  transportMethod : TransportMethod
  cropDiversity : ℕ
  conservationAgriculture : Bool
  mulching : Bool
deriving DecidableEq

/-- The record's validation predicate from the external interface contract:
`areaHectares > 0` and all usage quantities non-negative. -/
def FarmData.validated (fd : FarmData) : Prop :=
  0 < fd.area ∧
  0 ≤ fd.fertilizerUsage.synthetic ∧ 0 ≤ fd.fertilizerUsage.organic ∧
  0 ≤ fd.pesticideUsage.chemical ∧ 0 ≤ fd.pesticideUsage.organic ∧
  0 ≤ fd.fuelUsage.diesel ∧ 0 ≤ fd.fuelUsage.petrol ∧
  0 ≤ fd.fuelUsage.electricity ∧ 0 ≤ fd.irrigationHours

instance (fd : FarmData) : Decidable fd.validated := by
  unfold FarmData.validated; infer_instance

namespace CarbonFootprintService

/- Values of the static `emissionFactors` object, one named constant per
key of the JS object literal. -/
namespace ef

def synthetic_fertilizer : ℚ := 4.5
def organic_fertilizer : ℚ := 0.8
def urea : ℚ := 3.2
def dap : ℚ := 2.8
def potash : ℚ := 1.2
def chemical_pesticide : ℚ := 2.5
def neem_oil : ℚ := 0.3
def organic_pesticide : ℚ := 0.4
def diesel : ℚ := 2.68
def petrol : ℚ := 2.31
def electricity : ℚ := 0.95
def flood_irrigation : ℚ := 0.5
def drip_irrigation : ℚ := 0.15
def sprinkler_irrigation : ℚ := 0.25
def manual_transport : ℚ := 0.0
def bullock_cart : ℚ := 0.1
def tractor : ℚ := 0.8
def truck : ℚ := 0.6

end ef

/-- The `emissionFactors` object as a keyed lookup: `this.emissionFactors[k]`
yields the stored number for a present key and `undefined` (here `none`)
otherwise. A JS dot access such as `this.emissionFactors.diesel` is a
statically resolved present-key lookup and is embedded as the `ef` constant
directly. -/
def emissionFactors : String → Option ℚ
  | "synthetic_fertilizer" => some ef.synthetic_fertilizer
  | "organic_fertilizer" => some ef.organic_fertilizer
  | "urea" => some ef.urea
  | "dap" => some ef.dap
  | "potash" => some ef.potash
  | "chemical_pesticide" => some ef.chemical_pesticide
  | "neem_oil" => some ef.neem_oil
  | "organic_pesticide" => some ef.organic_pesticide
  | "diesel" => some ef.diesel
  | "petrol" => some ef.petrol
  | "electricity" => some ef.electricity
  | "flood_irrigation" => some ef.flood_irrigation
  | "drip_irrigation" => some ef.drip_irrigation
  | "sprinkler_irrigation" => some ef.sprinkler_irrigation
  | "manual_transport" => some ef.manual_transport
  | "bullock_cart" => some ef.bullock_cart
  | "tractor" => some ef.tractor
  | "truck" => some ef.truck
  | _ => none

/-- `calculateBaselineFootprint(farmData)`. The guards
`if (farmData.fertilizerUsage)` etc. are truthy on a validated record; the
guard `farmData.irrigationHours && farmData.irrigationType` is truthy iff
`irrigationHours ≠ 0` (the enum string is never empty). The irrigation
lookup uses the bare enum string with the `|| 0.5` fallback, exactly as the
source does. -/
def calculateBaselineFootprint (farmData : FarmData) : ℚ :=
  let totalFootprint : ℚ := 0
  let totalFootprint := totalFootprint +
    farmData.fertilizerUsage.synthetic * ef.synthetic_fertilizer
  let totalFootprint := totalFootprint +
    farmData.pesticideUsage.chemical * ef.chemical_pesticide
  let totalFootprint := totalFootprint +
    farmData.fuelUsage.diesel * ef.diesel
  let totalFootprint := totalFootprint +
    (if farmData.irrigationHours ≠ 0 then
      farmData.irrigationHours * farmData.area *
        jsOrDefault (emissionFactors farmData.irrigationType.jsString) 0.5
     else 0)
  round2 totalFootprint

/-- `calculateEcofriendlyFootprint(farmData)`. The manual-transport branch
adds the literal `0`, as in the source. -/
def calculateEcofriendlyFootprint (farmData : FarmData) : ℚ :=
  let totalFootprint : ℚ := 0
  let totalFootprint := totalFootprint +
    farmData.fertilizerUsage.organic * ef.organic_fertilizer
  let totalFootprint := totalFootprint +
    farmData.pesticideUsage.organic * ef.organic_pesticide
  let totalFootprint := totalFootprint +
    (if farmData.irrigationHours ≠ 0 ∧ farmData.irrigationType = .drip then
      farmData.irrigationHours * farmData.area * ef.drip_irrigation
     else 0)
  let totalFootprint := totalFootprint +
    (if farmData.transportMethod = .manual then 0 else 0)
  round2 totalFootprint

/-- `calculateCarbonReduction(baselineFootprint, ecofriendlyFootprint)`. -/
def calculateCarbonReduction (baselineFootprint ecofriendlyFootprint : ℚ) : ℤ :=
  if baselineFootprint = 0 then 0
  else jsRound (((baselineFootprint - ecofriendlyFootprint) / baselineFootprint) * 100)

/-- One entry of the recommendation list. The two always-fire rules omit
the `savings` field in the source (it is `undefined`), hence `none`;
a `savings` of `none` also models a NaN value. -/
structure Recommendation where
  practice : String
  impact : String
  savings : Option ℚ := none
  priority : String
  implementation : String
deriving DecidableEq

/-- The rule fired by `farmData.fertilizerUsage?.synthetic > 0`. -/
def organicFertilizerRec (farmData : FarmData) : Recommendation where
  practice := "Switch to organic fertilizer"
  impact := "Reduce emissions by 82% for fertilizer"
  savings := some (round2 (farmData.fertilizerUsage.synthetic *
    (ef.synthetic_fertilizer - ef.organic_fertilizer)))
  priority := "high"
  implementation := "Start using compost, vermicompost, or FYM"

/-- The rule fired by `farmData.pesticideUsage?.chemical > 0`. -/
def organicPesticideRec (farmData : FarmData) : Recommendation where
  practice := "Use organic pest control"
  impact := "Reduce emissions by 84% for pesticide"
  savings := some (round2 (farmData.pesticideUsage.chemical *
    (ef.chemical_pesticide - ef.organic_pesticide)))
  priority := "high"
  implementation := "Use neem oil, manual picking, beneficial insects"

/-- The rule fired by `irrigationType ∈ {flood, sprinkler}`. Its savings
expression looks the factor up under the bare enum string; when that lookup
is `undefined` the JS arithmetic produces NaN, modelled by `none`. -/
def installDripRec (farmData : FarmData) : Recommendation where
  practice := "Install drip irrigation"
  impact := "Reduce irrigation emissions by 70%"
  savings := (emissionFactors farmData.irrigationType.jsString).map
    (fun f => round2 (farmData.irrigationHours * farmData.area *
      (f - ef.drip_irrigation)))
  priority := "high"
  implementation := "Investment required, but saves water and reduces labor"

/-- Always-fire crop-rotation rule; no `savings` field. -/
def cropRotationRec : Recommendation where
  practice := "Practice crop rotation"
  impact := "Improve soil health, reduce disease, 10-15% yield improvement"
  priority := "medium"
  implementation := "Rotate with legumes to fix nitrogen naturally"

/-- Always-fire conservation-agriculture rule; no `savings` field. -/
def conservationAgricultureRec : Recommendation where
  practice := "Adopt conservation agriculture"
  impact := "Reduce fuel emissions, improve soil carbon"
  priority := "medium"
  implementation := "Reduce/zero tilling, mulching, crop residue management"

/-- The `recommendations` array in the order the source pushes entries. -/
def buildRecommendations (farmData : FarmData) : List Recommendation :=
  (if 0 < farmData.fertilizerUsage.synthetic then [organicFertilizerRec farmData] else []) ++
  (if 0 < farmData.pesticideUsage.chemical then [organicPesticideRec farmData] else []) ++
  (if farmData.irrigationType = .flood ∨ farmData.irrigationType = .sprinkler then
    [installDripRec farmData] else []) ++
  [cropRotationRec, conservationAgricultureRec]

/-- The `priorityOrder` object of the final sort. Every generated
recommendation carries the key `high` or `medium`, so the absent-key case
is unreachable on the lists the service builds. -/
def priorityOrder : String → Option ℤ
  | "high" => some 1
  | "medium" => some 2
  | "low" => some 3
  | _ => none

/-- The comparator order of `recommendations.sort(...)`:
`priorityOrder[a.priority] - priorityOrder[b.priority] ≤ 0`. -/
def recLe (a b : Recommendation) : Prop :=
  (priorityOrder a.priority).getD 0 ≤ (priorityOrder b.priority).getD 0

instance : DecidableRel recLe := fun a b =>
  Int.decLe ((priorityOrder a.priority).getD 0) ((priorityOrder b.priority).getD 0)

/-- `getEcofriendlyRecommendations(farmData)`: build the rule list, then
sort it with JS `Array.prototype.sort` (stable, per the language spec)
under the priority-rank comparator; embedded as a stable insertion sort. -/
def getEcofriendlyRecommendations (farmData : FarmData) : List Recommendation :=
  List.insertionSort recLe (buildRecommendations farmData)

/-- Result record of `calculateCarbonCreditPotential`. -/
structure CreditPotential where
  reductionTons : ℚ
  potentialValue : ℚ
  currency : String
deriving DecidableEq

/-- `calculateCarbonCreditPotential(carbonReductionKg)`. The value estimate
is computed from the unrounded ton figure, as in the source. -/
def calculateCarbonCreditPotential (carbonReductionKg : ℚ) : CreditPotential :=
  let costPerTon : ℚ := 400
  let reductionTons := carbonReductionKg / 1000
  { reductionTons := round2 reductionTons
    potentialValue := round2 (reductionTons * costPerTon)
    currency := "₹" }

/-- `calculateSustainabilityScore(farmData)`: base 50, eight independent
bonuses, clamped by `Math.min(100, Math.max(0, score))`. -/
def calculateSustainabilityScore (farmData : FarmData) : ℤ :=
  let score : ℤ := 50
  let score := score + (if 50 ≤ farmData.fertilizerUsage.organic then 10 else 0)
  let score := score + (if farmData.fertilizerUsage.synthetic = 0 then 5 else 0)
  let score := score + (if 50 ≤ farmData.pesticideUsage.organic then 10 else 0)
  let score := score + (if farmData.pesticideUsage.chemical = 0 then 5 else 0)
  let score := score + (if farmData.irrigationType = .drip then 15 else 0)
  let score := score + (if 3 ≤ farmData.cropDiversity then 10 else 0)
  let score := score + (if farmData.conservationAgriculture then 10 else 0)
  let score := score + (if farmData.mulching then 5 else 0)
  min 100 (max 0 score)

end CarbonFootprintService

/-! Spec-side definitions, written from the specification's words, to be
compared with the embedded source functions. -/

/-- The irrigation factor table as the spec states it: flood 0.5, drip 0.15,
sprinkler 0.25, defaulting to 0.5 for any other (unrecognized) value. -/
def specIrrigationFactor : IrrigationType → ℚ
  | .flood => 0.5
  | .drip => 0.15
  | .sprinkler => 0.25
  | .rainfed => 0.5

/-- The baseline-footprint formula as the spec states it:
round-to-2-decimals of `synthetic*4.5 + chemical*2.5 + diesel*2.68 +
irrigationHours*areaHectares*irrigationFactor[irrigationType]`. -/
def specBaselineFootprint (fd : FarmData) : ℚ :=
  round2 (fd.fertilizerUsage.synthetic * 4.5 +
    fd.pesticideUsage.chemical * 2.5 +
    fd.fuelUsage.diesel * 2.68 +
    fd.irrigationHours * fd.area * specIrrigationFactor fd.irrigationType)

/-- The eco-friendly-footprint formula as the spec states it:
round-to-2-decimals of `organic_fertilizer*0.8 + organic_pesticide*0.4 +
(irrigationHours*areaHectares*0.15 if drip else 0)`; manual transport
contributes 0. -/
def specEcofriendlyFootprint (fd : FarmData) : ℚ :=
  round2 (fd.fertilizerUsage.organic * 0.8 +
    fd.pesticideUsage.organic * 0.4 +
    (if fd.irrigationType = .drip then fd.irrigationHours * fd.area * 0.15 else 0))

/-- The drip-recommendation savings as the spec states it:
`hours * area * (factor[type] - 0.15)`, rounded to 2 decimals. -/
def specDripSavings (fd : FarmData) : ℚ :=
  round2 (fd.irrigationHours * fd.area *
    (specIrrigationFactor fd.irrigationType - 0.15))

/-- The sustainability score as the spec states it: base 50 plus the eight
independent additive bonuses, clamped to [0, 100]. The organic fertilizer
and pesticide shares are the `organic` quantity fields of the record. -/
def specSustainabilityScore (fd : FarmData) : ℤ :=
  min 100 (max 0 (50 +
    (if 50 ≤ fd.fertilizerUsage.organic then 10 else 0) +
    (if fd.fertilizerUsage.synthetic = 0 then 5 else 0) +
    (if 50 ≤ fd.pesticideUsage.organic then 10 else 0) +
    (if fd.pesticideUsage.chemical = 0 then 5 else 0) +
    (if fd.irrigationType = .drip then 15 else 0) +
    (if 3 ≤ fd.cropDiversity then 10 else 0) +
    (if fd.conservationAgriculture then 10 else 0) +
    (if fd.mulching then 5 else 0)))

/-- Carbon-credit tonnage as the spec states it: `reductionKg / 1000`,
rounded to 2 decimals. -/
def specCreditTons (reductionKg : ℚ) : ℚ := round2 (reductionKg / 1000)

/-- Carbon-credit monetary value as the spec states it:
`reductionTons * 400`, rounded to 2 decimals. -/
def specCreditValue (reductionKg : ℚ) : ℚ := round2 ((reductionKg / 1000) * 400)

/-! Concrete records used to exercise the claims. -/

/-- A validated record using drip irrigation for 2 hours on 1 hectare and
nothing else. -/
def dripOnlyRecord : FarmData where
  area := 1
  fertilizerUsage := { synthetic := 0, organic := 0 }
  pesticideUsage := { chemical := 0, organic := 0 }
  fuelUsage := { diesel := 0, petrol := 0, electricity := 0 }
  irrigationHours := 2
  irrigationType := .drip
  transportMethod := .manual
  cropDiversity := 1
  conservationAgriculture := false
  mulching := false

/-- A validated record using flood irrigation for 10 hours on 2 hectares and
nothing else. -/
def floodOnlyRecord : FarmData where
  area := 2
  fertilizerUsage := { synthetic := 0, organic := 0 }
  pesticideUsage := { chemical := 0, organic := 0 }
  fuelUsage := { diesel := 0, petrol := 0, electricity := 0 }
  irrigationHours := 10
  irrigationType := .flood
  transportMethod := .manual
  cropDiversity := 1
  conservationAgriculture := false
  mulching := false

/-- The all-usage-zero validated record: every quantity 0, rainfed
irrigation, manual transport, no conditional recommendation rule fires. -/
def zeroRecord : FarmData where
  area := 1
  fertilizerUsage := { synthetic := 0, organic := 0 }
  pesticideUsage := { chemical := 0, organic := 0 }
  fuelUsage := { diesel := 0, petrol := 0, electricity := 0 }
  irrigationHours := 0
  irrigationType := .rainfed
  transportMethod := .manual
  cropDiversity := 1
  conservationAgriculture := false
  mulching := false

/-! Helper lemmas. -/

/-- Evaluation rule for `round2` at an argument whose scaled value floors
to `n`. -/
theorem round2_eval (x : ℚ) (n : ℤ) (h1 : (n : ℚ) ≤ x * 100 + 1/2)
    (h2 : x * 100 + 1/2 < n + 1) : round2 x = (n : ℚ) / 100 := by
  unfold round2 jsRound
  rw [Int.floor_eq_iff.mpr ⟨h1, h2⟩]

/-- Looking the emission-factor table up under the bare enum string always
misses: the irrigation keys are suffixed with `_irrigation`. -/
theorem emissionFactors_jsString (t : IrrigationType) :
    CarbonFootprintService.emissionFactors t.jsString = none := by
  cases t <;> rfl

theorem priorityOrder_high : CarbonFootprintService.priorityOrder "high" = some 1 := rfl

theorem priorityOrder_medium : CarbonFootprintService.priorityOrder "medium" = some 2 := rfl

/-- The rule list is pushed with all `high` entries before the two `medium`
always-fire entries, so it is already sorted by priority rank. -/
theorem buildRecommendations_sorted (fd : FarmData) :
    List.Sorted CarbonFootprintService.recLe
      (CarbonFootprintService.buildRecommendations fd) := by
  unfold CarbonFootprintService.buildRecommendations
  split_ifs <;>
    norm_num [List.sorted_cons, CarbonFootprintService.recLe,
      priorityOrder_high, priorityOrder_medium,
      CarbonFootprintService.organicFertilizerRec,
      CarbonFootprintService.organicPesticideRec,
      CarbonFootprintService.installDripRec,
      CarbonFootprintService.cropRotationRec,
      CarbonFootprintService.conservationAgricultureRec]

/-! Claim theorems. -/

/-- C1: the spec's baseline formula says the irrigation term uses the
emission-factor table's per-type factor (drip 0.15); the code's bare-key
lookup misses every table key and the `|| 0.5` fallback is used instead,
so on a drip record with 2 hours over 1 hectare the code returns 1 where
the specified formula gives 0.3. -/
theorem baseline_dripRecord_uses_fallback_not_tableFactor :
    CarbonFootprintService.calculateBaselineFootprint dripOnlyRecord = 1 ∧
    specBaselineFootprint dripOnlyRecord = 3/10 ∧
    CarbonFootprintService.calculateBaselineFootprint dripOnlyRecord ≠
      specBaselineFootprint dripOnlyRecord := by
  have hb : CarbonFootprintService.calculateBaselineFootprint dripOnlyRecord = round2 1 := by
    norm_num [CarbonFootprintService.calculateBaselineFootprint, dripOnlyRecord,
      jsOrDefault, emissionFactors_jsString, CarbonFootprintService.ef.synthetic_fertilizer,
      CarbonFootprintService.ef.chemical_pesticide, CarbonFootprintService.ef.diesel]
  have hs : specBaselineFootprint dripOnlyRecord = round2 (3/10) := by
    norm_num [specBaselineFootprint, dripOnlyRecord, specIrrigationFactor]
  rw [hb, hs, round2_eval 1 100 (by norm_num) (by norm_num),
    round2_eval (3/10) 30 (by norm_num) (by norm_num)]
  norm_num

/-- C2: the eco-friendly footprint is the round-to-2-decimals of
`organic_fertilizer*0.8 + organic_pesticide*0.4 + (hours*area*0.15 if drip
else 0)`, for every record; manual transport contributes 0 to the sum. -/
theorem ecofriendlyFootprint_matches_spec (fd : FarmData) :
    CarbonFootprintService.calculateEcofriendlyFootprint fd =
      specEcofriendlyFootprint fd := by
  unfold CarbonFootprintService.calculateEcofriendlyFootprint specEcofriendlyFootprint
  rcases eq_or_ne fd.irrigationHours 0 with h0 | h0 <;>
    rcases eq_or_ne fd.irrigationType IrrigationType.drip with hd | hd <;>
      norm_num [h0, hd, CarbonFootprintService.ef.organic_fertilizer,
        CarbonFootprintService.ef.organic_pesticide,
        CarbonFootprintService.ef.drip_irrigation]

/-- C3: the reduction percentage is 0 when the baseline is 0 and otherwise
`round(((baseline - eco)/baseline)*100)`; the division-by-zero case is the
explicit first branch, never a fault. -/
theorem carbonReduction_matches_spec (b e : ℚ) :
    (b = 0 → CarbonFootprintService.calculateCarbonReduction b e = 0) ∧
    (b ≠ 0 → CarbonFootprintService.calculateCarbonReduction b e =
      jsRound (((b - e) / b) * 100)) := by
  unfold CarbonFootprintService.calculateCarbonReduction
  constructor <;> intro h <;> simp [h]

/-- C3 witness: both branches of the rule at concrete inputs; total
elimination from baseline 100 gives 100 percent. -/
theorem carbonReduction_matches_spec_witness :
    ((0 : ℚ) = 0 ∧ CarbonFootprintService.calculateCarbonReduction 0 5 = 0) ∧
    ((100 : ℚ) ≠ 0 ∧ CarbonFootprintService.calculateCarbonReduction 100 0 = 100) := by
  refine ⟨⟨rfl, (carbonReduction_matches_spec 0 5).1 rfl⟩, ⟨by norm_num, ?_⟩⟩
  rw [(carbonReduction_matches_spec 100 0).2 (by norm_num)]
  unfold jsRound
  rw [Int.floor_eq_iff]
  norm_num

/-- C4: the sustainability score is the clamp to [0,100] of 50 plus the
eight independent additive bonuses (organic fertilizer ≥ 50 → +10, zero
synthetic → +5, organic pesticide ≥ 50 → +10, zero chemical → +5, drip
→ +15, crop diversity ≥ 3 → +10, conservation flag → +10, mulching flag
→ +5), and it always lies in [0,100]. -/
theorem sustainabilityScore_matches_spec_and_clamped (fd : FarmData) :
    CarbonFootprintService.calculateSustainabilityScore fd =
      specSustainabilityScore fd ∧
    0 ≤ CarbonFootprintService.calculateSustainabilityScore fd ∧
    CarbonFootprintService.calculateSustainabilityScore fd ≤ 100 := by
  refine ⟨rfl, le_min (by norm_num) (le_max_left 0 _), min_le_left _ _⟩

/-- C5: on a validated flood record (10 hours, 2 hectares) the
drip-irrigation recommendation is generated, but its savings is the NaN of
`undefined - 0.15` (the bare-key lookup misses `flood_irrigation`), while
the specified formula `hours*area*(factor[type]-0.15)` gives 7. -/
theorem dripRecommendation_savings_is_nan :
    CarbonFootprintService.getEcofriendlyRecommendations floodOnlyRecord =
      [CarbonFootprintService.installDripRec floodOnlyRecord,
       CarbonFootprintService.cropRotationRec,
       CarbonFootprintService.conservationAgricultureRec] ∧
    (CarbonFootprintService.installDripRec floodOnlyRecord).savings = none ∧
    specDripSavings floodOnlyRecord = 7 := by
  refine ⟨rfl, rfl, ?_⟩
  have h : specDripSavings floodOnlyRecord = round2 7 := by
    norm_num [specDripSavings, floodOnlyRecord, specIrrigationFactor]
  rw [h, round2_eval 7 700 (by norm_num) (by norm_num)]
  norm_num

/-- C6: the recommendation list is the stable priority sort of the rule
list: it is sorted by rank (high 1, medium 2, low 3), and since the rules
are declared with all high entries before the medium ones, the sort leaves
the list in rule-declaration order. -/
theorem recommendations_sorted_by_priority (fd : FarmData) :
    CarbonFootprintService.getEcofriendlyRecommendations fd =
      CarbonFootprintService.buildRecommendations fd ∧
    List.Sorted CarbonFootprintService.recLe
      (CarbonFootprintService.getEcofriendlyRecommendations fd) := by
  have h := buildRecommendations_sorted fd
  have heq : CarbonFootprintService.getEcofriendlyRecommendations fd =
      CarbonFootprintService.buildRecommendations fd := h.insertionSort_eq
  exact ⟨heq, heq ▸ h⟩

/-- C7: on the all-usage-zero record the baseline and eco footprints are 0,
their reduction percentage is 0, and the recommendation list is exactly the
two always-fire items (crop rotation, conservation agriculture), neither of
which carries a savings value. -/
theorem allZeroRecord_results :
    CarbonFootprintService.calculateBaselineFootprint zeroRecord = 0 ∧
    CarbonFootprintService.calculateEcofriendlyFootprint zeroRecord = 0 ∧
    CarbonFootprintService.calculateCarbonReduction
      (CarbonFootprintService.calculateBaselineFootprint zeroRecord)
      (CarbonFootprintService.calculateEcofriendlyFootprint zeroRecord) = 0 ∧
    CarbonFootprintService.getEcofriendlyRecommendations zeroRecord =
      [CarbonFootprintService.cropRotationRec,
       CarbonFootprintService.conservationAgricultureRec] ∧
    CarbonFootprintService.cropRotationRec.savings = none ∧
    CarbonFootprintService.conservationAgricultureRec.savings = none := by
  have hb : CarbonFootprintService.calculateBaselineFootprint zeroRecord = round2 0 := by
    norm_num [CarbonFootprintService.calculateBaselineFootprint, zeroRecord,
      CarbonFootprintService.ef.synthetic_fertilizer,
      CarbonFootprintService.ef.chemical_pesticide, CarbonFootprintService.ef.diesel]
  have he : CarbonFootprintService.calculateEcofriendlyFootprint zeroRecord = round2 0 := by
    norm_num [CarbonFootprintService.calculateEcofriendlyFootprint, zeroRecord,
      CarbonFootprintService.ef.organic_fertilizer,
      CarbonFootprintService.ef.organic_pesticide]
  have h0 : round2 0 = 0 := by
    rw [round2_eval 0 0 (by norm_num) (by norm_num)]; norm_num
  rw [hb, he, h0]
  refine ⟨rfl, rfl, rfl, rfl, rfl, rfl⟩

/-- C8: the carbon-credit potential of `reductionKg` is
`round2(reductionKg/1000)` tons worth `round2((reductionKg/1000)*400)`,
and the input 1000 yields 1.0 ton worth 400.0. -/
theorem carbonCreditPotential_matches_spec (reductionKg : ℚ) :
    (CarbonFootprintService.calculateCarbonCreditPotential reductionKg).reductionTons =
      specCreditTons reductionKg ∧
    (CarbonFootprintService.calculateCarbonCreditPotential reductionKg).potentialValue =
      specCreditValue reductionKg ∧
    (CarbonFootprintService.calculateCarbonCreditPotential 1000).reductionTons = 1 ∧
    (CarbonFootprintService.calculateCarbonCreditPotential 1000).potentialValue = 400 := by
  refine ⟨rfl, rfl, ?_, ?_⟩
  · show round2 (1000 / 1000) = 1
    rw [round2_eval (1000/1000) 100 (by norm_num) (by norm_num)]; norm_num
  · show round2 (1000 / 1000 * 400) = 400
    rw [round2_eval (1000/1000*400) 40000 (by norm_num) (by norm_num)]; norm_num

/-- C9: the baseline footprint does not depend on which of the four enum
values `irrigationType` holds: the table keys are suffixed with
`_irrigation` while the lookup uses the bare enum string, so every one of
them falls through to the 0.5 default. -/
theorem baselineFootprint_independent_of_irrigationType :
    (∀ t : IrrigationType,
      jsOrDefault (CarbonFootprintService.emissionFactors t.jsString) 0.5 = 0.5) ∧
    ∀ (fd : FarmData) (t₁ t₂ : IrrigationType),
      CarbonFootprintService.calculateBaselineFootprint { fd with irrigationType := t₁ } =
      CarbonFootprintService.calculateBaselineFootprint { fd with irrigationType := t₂ } := by
  refine ⟨fun t => by rw [emissionFactors_jsString t]; rfl, fun fd t₁ t₂ => ?_⟩
  unfold CarbonFootprintService.calculateBaselineFootprint
  simp [emissionFactors_jsString]

/-- C10: the sustainability score is at least the base 50 (every bonus is
non-negative, so the lower clamp at 0 is unreachable) and at most 100. -/
theorem sustainabilityScore_between_50_and_100 (fd : FarmData) :
    50 ≤ CarbonFootprintService.calculateSustainabilityScore fd ∧
    CarbonFootprintService.calculateSustainabilityScore fd ≤ 100 := by
  simp only [CarbonFootprintService.calculateSustainabilityScore]
  split_ifs <;> omega
